import Mathlib

set_option linter.unusedVariables false

/- Verification development for the tacopie TCP networking library
(deguangchow/tacopie). The definitions below are a shallow embedding of the
C++ sources: `tcp_socket` (sources/network/common/tcp_socket.cpp and
sources/network/windows/windows_tcp_socket.cpp), the reactor `io_service`
(sources/network/io_service.cpp) and the asynchronous client `tcp_client`
(sources/network/tcp_client.cpp). Platform syscall outcomes (`recv`, `send`,
`connect`, ...) are passed as explicit parameters; mutex-guarded critical
sections of the C++ become atomic state-transition functions; exceptions
become `Except` results paired with the (possibly mutated) state, since the
C++ methods mutate `this` in place before throwing. -/

namespace tacopie

/-- Unified error kind of the library (`tacopie_error`), carrying a message. -/
structure tacopie_error where
  message : String
deriving DecidableEq

/-- Returns true exactly on the `error` constructor of `Except`. -/
def isErr {ε α : Type} : Except ε α → Bool
  | .error _ => true
  | .ok _ => false

/-- Socket role, `tcp_socket::type` with values UNKNOWN, CLIENT, SERVER. -/
inductive socket_type
  | UNKNOWN
  | CLIENT
  | SERVER
deriving DecidableEq

/-- The invalid-descriptor sentinel `__TACOPIE_INVALID_FD`; descriptors are
modelled as integers with `-1` invalid. -/
def INVALID_FD : Int := -1

/-- `tcp_socket` data: `{m_fd, m_sHost, m_uPort, m_eType}`. -/
structure tcp_socket where
  m_fd : Int
  m_sHost : String
  m_uPort : Nat
  m_eType : socket_type
deriving DecidableEq

/-- `tcp_socket::create_socket_if_necessary`: if the fd is valid, no-op;
otherwise acquire a fresh descriptor (`freshFd` stands for the `socket()`
result) and reset the role to UNKNOWN, failing if `socket()` failed. The
mutations persist even on the throwing path, as in the C++. -/
def tcp_socket.create_socket_if_necessary (s : tcp_socket) (freshFd : Int) :
    tcp_socket × Except tacopie_error Unit :=
  if s.m_fd ≠ INVALID_FD then (s, .ok ())
  else
    let s2 : tcp_socket := { s with m_fd := freshFd, m_eType := socket_type.UNKNOWN }
    if freshFd = INVALID_FD then
      (s2, .error ⟨"tcp_socket::create_socket_if_necessary: socket() failure"⟩)
    else (s2, .ok ())

/-- `tcp_socket::check_or_set_type`: error (role left unchanged) when the
current role is neither UNKNOWN nor the requested one; otherwise set it. -/
def tcp_socket.check_or_set_type (s : tcp_socket) (eType : socket_type) :
    tcp_socket × Except tacopie_error Unit :=
  if s.m_eType ≠ socket_type.UNKNOWN ∧ s.m_eType ≠ eType then
    (s, .error ⟨"trying to perform invalid operation on socket"⟩)
  else
    ({ s with m_eType := eType }, .ok ())

/-- `tcp_socket::set_type`: unconditionally overwrite the role. -/
def tcp_socket.set_type (s : tcp_socket) (eType : socket_type) : tcp_socket :=
  { s with m_eType := eType }

/-- `tcp_socket::close` (windows_tcp_socket.cpp): close the descriptor if
valid, then reset the fd to invalid and the role to UNKNOWN. Idempotent. -/
def tcp_socket.close (s : tcp_socket) : tcp_socket :=
  { s with m_fd := INVALID_FD, m_eType := socket_type.UNKNOWN }

/-- Outcome of the platform `::recv` call: a socket error, or the bytes read
(possibly zero bytes when the peer closed). -/
inductive recv_ret
  | socket_error
  | data (bytes : List Nat)
deriving DecidableEq

/-- `tcp_socket::recv`: ensure a socket exists, require the CLIENT role, then
perform the platform `recv`. A platform error raises; a 0-byte read raises
(peer closed); otherwise the bytes are returned. -/
def tcp_socket.recv (s : tcp_socket) (uSizeToRead : Nat) (freshFd : Int)
    (platform : recv_ret) : tcp_socket × Except tacopie_error (List Nat) :=
  let cr := tcp_socket.create_socket_if_necessary s freshFd
  match cr.2 with
  | .error e => (cr.1, .error e)
  | .ok _ =>
    let ck := tcp_socket.check_or_set_type cr.1 socket_type.CLIENT
    match ck.2 with
    | .error e => (ck.1, .error e)
    | .ok _ =>
      match platform with
      | .socket_error => (ck.1, .error ⟨"recv() failure"⟩)
      | .data bytes =>
        if bytes.length = 0 then
          (ck.1, .error ⟨"nothing to read, socket has been closed by remote host"⟩)
        else (ck.1, .ok bytes)

/-- Outcome of the platform `::send` call. -/
inductive send_ret
  | socket_error
  | sent (n : Nat)
deriving DecidableEq

/-- `tcp_socket::send`: ensure a socket exists, require the CLIENT role, then
perform the platform `send`; an error raises, otherwise the written size is
returned. -/
def tcp_socket.send (s : tcp_socket) (vctData : List Nat) (uSizeToWrite : Nat)
    (freshFd : Int) (platform : send_ret) : tcp_socket × Except tacopie_error Nat :=
  let cr := tcp_socket.create_socket_if_necessary s freshFd
  match cr.2 with
  | .error e => (cr.1, .error e)
  | .ok _ =>
    let ck := tcp_socket.check_or_set_type cr.1 socket_type.CLIENT
    match ck.2 with
    | .error e => (ck.1, .error e)
    | .ok _ =>
      match platform with
      | .socket_error => (ck.1, .error ⟨"send() failure"⟩)
      | .sent n => (ck.1, .ok n)

/-- Outcome of `tcp_socket::connect`'s platform steps, after the role check:
address-resolution failure (raises without closing), a socket-level failure
(`ioctlsocket`, `::connect` or the `SO_ERROR` check: closes then raises),
timeout expiration (closes then raises), or success. -/
inductive connect_outcome
  | addr_failure
  | sock_failure
  | timeout_expired
  | success
deriving DecidableEq

/-- `tcp_socket::connect` (windows_tcp_socket.cpp): record host and port,
ensure a socket exists, require the CLIENT role, then resolve the address and
connect; on the socket-level failure paths the socket closes itself before
raising. -/
def tcp_socket.connect (s : tcp_socket) (sHost : String) (uPort : Nat)
    (freshFd : Int) (platform : connect_outcome) :
    tcp_socket × Except tacopie_error Unit :=
  let s1 : tcp_socket := { s with m_sHost := sHost, m_uPort := uPort }
  let cr := tcp_socket.create_socket_if_necessary s1 freshFd
  match cr.2 with
  | .error e => (cr.1, .error e)
  | .ok _ =>
    let ck := tcp_socket.check_or_set_type cr.1 socket_type.CLIENT
    match ck.2 with
    | .error e => (ck.1, .error e)
    | .ok _ =>
      match platform with
      | .addr_failure => (ck.1, .error ⟨"getaddrinfo() failure"⟩)
      | .sock_failure => (tcp_socket.close ck.1, .error ⟨"connect() failure"⟩)
      | .timeout_expired => (tcp_socket.close ck.1, .error ⟨"connect() timed out"⟩)
      | .success => (ck.1, .ok ())

/-- Outcome of the platform steps of `tcp_socket::bind`. -/
inductive bind_ret
  | addr_failure
  | bind_failure
  | success
deriving DecidableEq

/-- `tcp_socket::bind` (windows_tcp_socket.cpp): record host and port, ensure
a socket exists, require the SERVER role, resolve the address and bind. -/
def tcp_socket.bind (s : tcp_socket) (sHost : String) (uPort : Nat)
    (freshFd : Int) (platform : bind_ret) : tcp_socket × Except tacopie_error Unit :=
  let s1 : tcp_socket := { s with m_sHost := sHost, m_uPort := uPort }
  let cr := tcp_socket.create_socket_if_necessary s1 freshFd
  match cr.2 with
  | .error e => (cr.1, .error e)
  | .ok _ =>
    let ck := tcp_socket.check_or_set_type cr.1 socket_type.SERVER
    match ck.2 with
    | .error e => (ck.1, .error e)
    | .ok _ =>
      match platform with
      | .addr_failure => (ck.1, .error ⟨"getaddrinfo() failure"⟩)
      | .bind_failure => (ck.1, .error ⟨"bind() failure"⟩)
      | .success => (ck.1, .ok ())

/-- Outcome of the platform `::listen` call. -/
inductive listen_ret
  | listen_failure
  | success
deriving DecidableEq

/-- `tcp_socket::listen` (common/tcp_socket.cpp): ensure a socket exists,
require the SERVER role, then perform the platform `listen`. -/
def tcp_socket.listen (s : tcp_socket) (uMaxConnectionQueue : Nat)
    (freshFd : Int) (platform : listen_ret) : tcp_socket × Except tacopie_error Unit :=
  let cr := tcp_socket.create_socket_if_necessary s freshFd
  match cr.2 with
  | .error e => (cr.1, .error e)
  | .ok _ =>
    let ck := tcp_socket.check_or_set_type cr.1 socket_type.SERVER
    match ck.2 with
    | .error e => (ck.1, .error e)
    | .ok _ =>
      match platform with
      | .listen_failure => (ck.1, .error ⟨"listen() failure"⟩)
      | .success => (ck.1, .ok ())

/-- Outcome of the platform `::accept` call: failure, or an accepted
connection with its descriptor, peer address and port. -/
inductive accept_ret
  | accept_failure
  | conn (fd : Int) (sAddr : String) (uPort : Nat)
deriving DecidableEq

/-- `tcp_socket::accept` (common/tcp_socket.cpp): ensure a socket exists,
require the SERVER role, then accept; on success the accepted connection is
returned as a new CLIENT-role socket, the listening socket unchanged beyond
the role check. -/
def tcp_socket.accept (s : tcp_socket) (freshFd : Int) (platform : accept_ret) :
    tcp_socket × Except tacopie_error tcp_socket :=
  let cr := tcp_socket.create_socket_if_necessary s freshFd
  match cr.2 with
  | .error e => (cr.1, .error e)
  | .ok _ =>
    let ck := tcp_socket.check_or_set_type cr.1 socket_type.SERVER
    match ck.2 with
    | .error e => (ck.1, .error e)
    | .ok _ =>
      match platform with
      | .accept_failure => (ck.1, .error ⟨"accept() failure"⟩)
      | .conn fd sAddr uPort => (ck.1, .ok ⟨fd, sAddr, uPort, socket_type.CLIENT⟩)

/-- Callback values storable in the reactor: the bound member functions
`tcp_client::on_read_available` and `tcp_client::on_write_available`, or some
other callable identified by a number. -/
inductive event_callback
  | on_read_available
  | on_write_available
  | other (id : Nat)
deriving DecidableEq

/-- Reactor-internal per-fd record `io_service::tracked_socket`:
`{callbackRead, callbackWrite, bIsExecutingCallbackRead_a,
bIsExecutingCallbackWrite_a, bMarkedForUntrack_a}`. -/
structure tracked_socket where
  callbackRead : Option event_callback
  callbackWrite : Option event_callback
  bIsExecutingCallbackRead : Bool
  bIsExecutingCallbackWrite : Bool
  bMarkedForUntrack : Bool
deriving DecidableEq

/-- Modelled from the spec: the field initializers of `tracked_socket` live in
the `io_service.hpp` header, which is not among the sources. Per the spec's
data model (§3, TrackedSocket) a freshly created record has no read or write
callback, neither executing flag set, and is not marked for untrack; this is
the value `std::unordered_map::operator[]` default-constructs. -/
def tracked_socket.default_init : tracked_socket :=
  { callbackRead := none, callbackWrite := none,
    bIsExecutingCallbackRead := false, bIsExecutingCallbackWrite := false,
    bMarkedForUntrack := false }

/-- The tracked-sockets mapping, keyed by descriptor. -/
def fd_map : Type := Int → Option tracked_socket

/-- Insert or overwrite the record for a descriptor. -/
def fd_map.insert (m : fd_map) (fd : Int) (t : tracked_socket) : fd_map :=
  fun x => if x = fd then some t else m x

/-- Erase the record for a descriptor. -/
def fd_map.erase (m : fd_map) (fd : Int) : fd_map :=
  fun x => if x = fd then none else m x

/-- `io_service` state as seen under `m_mtxTrackedSockets`: the tracked map,
plus a count of `m_selfPipeNotifier.notify()` calls and a count of
`m_cvWaitForRemoval.notify_all()` broadcasts, so claims about notification
and removal broadcasting are statable. -/
structure io_service where
  m_mapTrackedSockets : fd_map
  m_nNotifyCount : Nat
  m_nRemovalBroadcastCount : Nat

/-- `io_service::track`: insert or overwrite the record for the socket's fd,
resetting both callbacks to the given ones, clearing the untrack mark and
both executing flags, then notify. -/
def io_service.track (s : io_service) (fd : Int)
    (callbackRead callbackWrite : Option event_callback) : io_service :=
  { s with
    m_mapTrackedSockets := fd_map.insert s.m_mapTrackedSockets fd
      { callbackRead := callbackRead, callbackWrite := callbackWrite,
        bMarkedForUntrack := false, bIsExecutingCallbackRead := false,
        bIsExecutingCallbackWrite := false },
    m_nNotifyCount := s.m_nNotifyCount + 1 }

/-- `io_service::set_rd_callback`: `operator[]` fetches the record for the fd
(default-constructing one when absent), the read callback is overwritten,
then notify. -/
def io_service.set_rd_callback (s : io_service) (fd : Int)
    (callbackEvent : Option event_callback) : io_service :=
  let track_info := (s.m_mapTrackedSockets fd).getD tracked_socket.default_init
  { s with
    m_mapTrackedSockets := fd_map.insert s.m_mapTrackedSockets fd
      { track_info with callbackRead := callbackEvent },
    m_nNotifyCount := s.m_nNotifyCount + 1 }

/-- `io_service::set_wr_callback`: symmetric to `set_rd_callback` for the
write callback. -/
def io_service.set_wr_callback (s : io_service) (fd : Int)
    (callbackEvent : Option event_callback) : io_service :=
  let track_info := (s.m_mapTrackedSockets fd).getD tracked_socket.default_init
  { s with
    m_mapTrackedSockets := fd_map.insert s.m_mapTrackedSockets fd
      { track_info with callbackWrite := callbackEvent },
    m_nNotifyCount := s.m_nNotifyCount + 1 }

/-- `io_service::untrack`: when the fd is not tracked, return at once (no
notification). Otherwise, when a read or write callback is executing, only
set the untrack mark; else erase the record and broadcast the removal
condvar. In both tracked cases, notify. -/
def io_service.untrack (s : io_service) (fd : Int) : io_service :=
  match s.m_mapTrackedSockets fd with
  | none => s
  | some t =>
    if t.bIsExecutingCallbackRead || t.bIsExecutingCallbackWrite then
      { s with
        m_mapTrackedSockets := fd_map.insert s.m_mapTrackedSockets fd
          { t with bMarkedForUntrack := true },
        m_nNotifyCount := s.m_nNotifyCount + 1 }
    else
      { s with
        m_mapTrackedSockets := fd_map.erase s.m_mapTrackedSockets fd,
        m_nRemovalBroadcastCount := s.m_nRemovalBroadcastCount + 1,
        m_nNotifyCount := s.m_nNotifyCount + 1 }

/-- A dispatch closure submitted to the worker pool by the poller: the fd,
the direction, and the captured callback value. -/
structure dispatch where
  fd : Int
  isRead : Bool
  callbackEvent : event_callback
deriving DecidableEq

/-- The poller-side half of `process_rd_event`/`process_wr_event` for one
record: if the fd polled readable with a read callback present and not
executing, capture the callback, set the read-executing flag and submit a
read-dispatch closure; then symmetrically for write on the updated record
(the C++ mutates the record in place through a reference). Returns the
updated record and the submitted dispatch closures. -/
def poll_dispatch (fd : Int) (t : tracked_socket) (readable writable : Bool) :
    tracked_socket × List dispatch :=
  let doRead := readable && t.callbackRead.isSome && !t.bIsExecutingCallbackRead
  let t1 := if doRead then { t with bIsExecutingCallbackRead := true } else t
  let ds1 : List dispatch :=
    match doRead, t.callbackRead with
    | true, some cb => [⟨fd, true, cb⟩]
    | _, _ => []
  let doWrite := writable && t1.callbackWrite.isSome && !t1.bIsExecutingCallbackWrite
  let t2 := if doWrite then { t1 with bIsExecutingCallbackWrite := true } else t1
  let ds2 : List dispatch :=
    match doWrite, t1.callbackWrite with
    | true, some cb => ds1 ++ [⟨fd, false, cb⟩]
    | _, _ => ds1
  (t2, ds2)

/-- One tracked fd's step of `io_service::process_events` (the loop body for
a non-notifier fd): skip when untracked; otherwise run the read/write
dispatch submissions, then erase the record and broadcast the removal
condvar exactly when it is marked for untrack with neither direction
executing. -/
def io_service.process_fd (s : io_service) (fd : Int) (readable writable : Bool) :
    io_service × List dispatch :=
  match s.m_mapTrackedSockets fd with
  | none => (s, [])
  | some t =>
    let pd := poll_dispatch fd t readable writable
    if pd.1.bMarkedForUntrack && !pd.1.bIsExecutingCallbackRead
        && !pd.1.bIsExecutingCallbackWrite then
      ({ s with
         m_mapTrackedSockets := fd_map.erase s.m_mapTrackedSockets fd,
         m_nRemovalBroadcastCount := s.m_nRemovalBroadcastCount + 1 }, pd.2)
    else
      ({ s with
         m_mapTrackedSockets := fd_map.insert s.m_mapTrackedSockets fd pd.1 }, pd.2)

/-- The worker-side tail of the read-dispatch closure in `process_rd_event`,
after the captured callback has run: under the tracking lock, return if the
record is gone; else clear the read-executing flag, then erase the record
and broadcast the removal condvar exactly when it is marked for untrack and
the write direction is not executing; finally notify. -/
def io_service.rd_dispatch_done (s : io_service) (fd : Int) : io_service :=
  match s.m_mapTrackedSockets fd with
  | none => s
  | some t =>
    let t2 := { t with bIsExecutingCallbackRead := false }
    if t2.bMarkedForUntrack && !t2.bIsExecutingCallbackWrite then
      { s with
        m_mapTrackedSockets := fd_map.erase s.m_mapTrackedSockets fd,
        m_nRemovalBroadcastCount := s.m_nRemovalBroadcastCount + 1,
        m_nNotifyCount := s.m_nNotifyCount + 1 }
    else
      { s with
        m_mapTrackedSockets := fd_map.insert s.m_mapTrackedSockets fd t2,
        m_nNotifyCount := s.m_nNotifyCount + 1 }

/-- The worker-side tail of the write-dispatch closure in `process_wr_event`:
symmetric to `rd_dispatch_done`. -/
def io_service.wr_dispatch_done (s : io_service) (fd : Int) : io_service :=
  match s.m_mapTrackedSockets fd with
  | none => s
  | some t =>
    let t2 := { t with bIsExecutingCallbackWrite := false }
    if t2.bMarkedForUntrack && !t2.bIsExecutingCallbackRead then
      { s with
        m_mapTrackedSockets := fd_map.erase s.m_mapTrackedSockets fd,
        m_nRemovalBroadcastCount := s.m_nRemovalBroadcastCount + 1,
        m_nNotifyCount := s.m_nNotifyCount + 1 }
    else
      { s with
        m_mapTrackedSockets := fd_map.insert s.m_mapTrackedSockets fd t2,
        m_nNotifyCount := s.m_nNotifyCount + 1 }

/-- `tcp_client::read_request`: requested size and the user callback
(callbacks are identified by a number). -/
structure read_request where
  nSizeToRead : Nat
  callbackAsyncRead : Nat
deriving DecidableEq

/-- `tcp_client::write_request`: buffer to write and the user callback. -/
structure write_request where
  vctBuffer : List Nat
  callbackAsyncWrite : Nat
deriving DecidableEq

/-- `tcp_client::read_result`: `{success, buffer}`. -/
structure read_result where
  success : Bool
  buffer : List Nat
deriving DecidableEq

/-- `tcp_client::write_result`: `{success, size}`. -/
structure write_result where
  success : Bool
  size : Nat
deriving DecidableEq

/-- A user-code invocation performed by the client's handlers: a read or
write callback with its result, or the disconnection handler. -/
inductive invocation
  | read_cb (id : Nat) (res : read_result)
  | write_cb (id : Nat) (res : write_result)
  | disconnection
deriving DecidableEq

/-- `tcp_client` state: the owned socket, the connected flag, the two FIFO
request queues (front at the head), and whether a disconnection handler is
installed. -/
structure tcp_client where
  m_tcpSocket : tcp_socket
  m_bIsConnected : Bool
  m_queReadRequests : List read_request
  m_queWriteRequests : List write_request
  m_handlerDisconnection : Bool
deriving DecidableEq

/-- A client together with its (shared) `io_service`. -/
structure client_world where
  client : tcp_client
  svc : io_service

/-- `tcp_client::connect`: raise when already connected; otherwise perform
the blocking socket connect, then track the socket in the reactor, then set
the connected flag. On failure of the connect step the socket is closed and
the error re-raised, the connected flag left false. Modelled from the spec:
the default callback arguments of `io_service::track` live in the header
(not among the sources); per the spec the socket is tracked "with no active
callbacks", i.e. both callbacks nil. -/
def tcp_client.connect (w : client_world) (sHost : String) (uPort : Nat)
    (freshFd : Int) (platform : connect_outcome) :
    client_world × Except tacopie_error Unit :=
  if w.client.m_bIsConnected then
    (w, .error ⟨"tcp_client is already connected"⟩)
  else
    let sc := tcp_socket.connect w.client.m_tcpSocket sHost uPort freshFd platform
    match sc.2 with
    | .error e =>
      ({ w with client := { w.client with m_tcpSocket := tcp_socket.close sc.1 } },
       .error e)
    | .ok _ =>
      let svc := io_service.track w.svc sc.1.m_fd none none
      ({ client := { w.client with m_tcpSocket := sc.1, m_bIsConnected := true },
         svc := svc }, .ok ())

/-- `tcp_client::disconnect`: return at once when not connected; otherwise
clear the connected flag, discard both request queues (no callback is
invoked: the returned invocation list is what disconnect runs, and it is
empty), untrack the fd from the reactor, and close the socket.
`wait_for_removal` (performed when `bWaitForRemoval` is set) blocks until
the record is gone but mutates no state, so it has no effect in this
embedding. -/
def tcp_client.disconnect (w : client_world) (bWaitForRemoval : Bool) :
    client_world × List invocation :=
  if w.client.m_bIsConnected then
    let c :=
      { w.client with
        m_bIsConnected := false
        m_queReadRequests := []
        m_queWriteRequests := [] }
    let svc := io_service.untrack w.svc w.client.m_tcpSocket.m_fd
    ({ client := { c with m_tcpSocket := tcp_socket.close c.m_tcpSocket },
       svc := svc }, [])
  else (w, [])

/-- `tcp_client::process_read` under the read-queue lock: with an empty queue
return a nil callback at once (the result untouched, nothing else changed).
Otherwise take the front request, attempt `recv` (success fills the buffer
and sets success, a raised `tacopie_error` only clears success), pop the
request, and clear the reactor's read callback when the queue drained; the
front request's callback is returned for the caller to invoke. -/
def tcp_client.process_read (w : client_world) (resultRead : read_result)
    (freshFd : Int) (platform : recv_ret) :
    client_world × Option Nat × read_result :=
  match w.client.m_queReadRequests with
  | [] => (w, none, resultRead)
  | requestRead :: rest =>
    let callbackRead := requestRead.callbackAsyncRead
    let sr := tcp_socket.recv w.client.m_tcpSocket requestRead.nSizeToRead freshFd platform
    let resultRead2 :=
      match sr.2 with
      | .ok bytes => { resultRead with buffer := bytes, success := true }
      | .error _ => { resultRead with success := false }
    let svc :=
      if rest.isEmpty then io_service.set_rd_callback w.svc sr.1.m_fd none
      else w.svc
    ({ client := { w.client with m_tcpSocket := sr.1, m_queReadRequests := rest },
       svc := svc }, some callbackRead, resultRead2)

/-- `tcp_client::process_write` under the write-queue lock: symmetric to
`process_read`, sending the front request's buffer. -/
def tcp_client.process_write (w : client_world) (resultWrite : write_result)
    (freshFd : Int) (platform : send_ret) :
    client_world × Option Nat × write_result :=
  match w.client.m_queWriteRequests with
  | [] => (w, none, resultWrite)
  | requestWrite :: rest =>
    let callbackWrite := requestWrite.callbackAsyncWrite
    let sr := tcp_socket.send w.client.m_tcpSocket requestWrite.vctBuffer
        requestWrite.vctBuffer.length freshFd platform
    let resultWrite2 :=
      match sr.2 with
      | .ok n => { resultWrite with size := n, success := true }
      | .error _ => { resultWrite with success := false }
    let svc :=
      if rest.isEmpty then io_service.set_wr_callback w.svc sr.1.m_fd none
      else w.svc
    ({ client := { w.client with m_tcpSocket := sr.1, m_queWriteRequests := rest },
       svc := svc }, some callbackWrite, resultWrite2)

/-- `tcp_client::on_read_available`, the reactor's read handler: run
`process_read` on a default-constructed result (`resultInit` stands for that
initial value), disconnect on failure, invoke the popped request's callback
with the result when one was popped, and on failure also invoke the
disconnection handler (when installed). The returned list is the sequence of
user-code invocations performed. -/
def tcp_client.on_read_available (w : client_world) (resultInit : read_result)
    (freshFd : Int) (platform : recv_ret) : client_world × List invocation :=
  let pr := tcp_client.process_read w resultInit freshFd platform
  let w1 := pr.1
  let callbackRead := pr.2.1
  let resultRead := pr.2.2
  let w2 := if resultRead.success then w1 else (tcp_client.disconnect w1 false).1
  let invs1 : List invocation :=
    match callbackRead with
    | some cb => [invocation.read_cb cb resultRead]
    | none => []
  let invs2 : List invocation :=
    if resultRead.success then []
    else if w2.client.m_handlerDisconnection then [invocation.disconnection] else []
  (w2, invs1 ++ invs2)

/-- `tcp_client::on_write_available`, the reactor's write handler: symmetric
to `on_read_available`. -/
def tcp_client.on_write_available (w : client_world) (resultInit : write_result)
    (freshFd : Int) (platform : send_ret) : client_world × List invocation :=
  let pr := tcp_client.process_write w resultInit freshFd platform
  let w1 := pr.1
  let callbackWrite := pr.2.1
  let resultWrite := pr.2.2
  let w2 := if resultWrite.success then w1 else (tcp_client.disconnect w1 false).1
  let invs1 : List invocation :=
    match callbackWrite with
    | some cb => [invocation.write_cb cb resultWrite]
    | none => []
  let invs2 : List invocation :=
    if resultWrite.success then []
    else if w2.client.m_handlerDisconnection then [invocation.disconnection] else []
  (w2, invs1 ++ invs2)

/-- `tcp_client::async_read` under the read-queue lock: when connected,
install this client's read handler as the reactor's read callback and append
the request to the read queue; when disconnected, raise a usage error with
everything unchanged. -/
def tcp_client.async_read (w : client_world) (requestRead : read_request) :
    client_world × Except tacopie_error Unit :=
  if w.client.m_bIsConnected then
    let svc := io_service.set_rd_callback w.svc w.client.m_tcpSocket.m_fd
        (some event_callback.on_read_available)
    ({ client := { w.client with
         m_queReadRequests := w.client.m_queReadRequests ++ [requestRead] },
       svc := svc }, .ok ())
  else (w, .error ⟨"tcp_client is disconnected"⟩)

/-- `tcp_client::async_write` under the write-queue lock: symmetric to
`async_read`. -/
def tcp_client.async_write (w : client_world) (requestWrite : write_request) :
    client_world × Except tacopie_error Unit :=
  if w.client.m_bIsConnected then
    let svc := io_service.set_wr_callback w.svc w.client.m_tcpSocket.m_fd
        (some event_callback.on_write_available)
    ({ client := { w.client with
         m_queWriteRequests := w.client.m_queWriteRequests ++ [requestWrite] },
       svc := svc }, .ok ())
  else (w, .error ⟨"tcp_client is disconnected"⟩)

/-- The operations of `tcp_socket`'s public mutating interface, with their
platform outcomes. -/
inductive socket_op
  | op_recv (uSizeToRead : Nat) (freshFd : Int) (platform : recv_ret)
  | op_send (vctData : List Nat) (uSizeToWrite : Nat) (freshFd : Int) (platform : send_ret)
  | op_connect (sHost : String) (uPort : Nat) (freshFd : Int) (platform : connect_outcome)
  | op_bind (sHost : String) (uPort : Nat) (freshFd : Int) (platform : bind_ret)
  | op_listen (uMaxConnectionQueue : Nat) (freshFd : Int) (platform : listen_ret)
  | op_accept (freshFd : Int) (platform : accept_ret)
  | op_close
  | op_set_type (eType : socket_type)
deriving DecidableEq

/-- Run one `tcp_socket` operation, keeping the mutated socket and whether
the operation raised. -/
def tcp_socket.step (s : tcp_socket) : socket_op → tcp_socket × Except tacopie_error Unit
  | .op_recv n f p =>
    let r := tcp_socket.recv s n f p
    (r.1, r.2.map fun _ => ())
  | .op_send d n f p =>
    let r := tcp_socket.send s d n f p
    (r.1, r.2.map fun _ => ())
  | .op_connect h u f p => tcp_socket.connect s h u f p
  | .op_bind h u f p => tcp_socket.bind s h u f p
  | .op_listen n f p => tcp_socket.listen s n f p
  | .op_accept f p =>
    let r := tcp_socket.accept s f p
    (r.1, r.2.map fun _ => ())
  | .op_close => (tcp_socket.close s, .ok ())
  | .op_set_type t => (tcp_socket.set_type s t, .ok ())

/-- The role an operation is guarded on via `check_or_set_type`; `close` and
`set_type` are unguarded. -/
def socket_op.required_role : socket_op → Option socket_type
  | .op_recv .. => some socket_type.CLIENT
  | .op_send .. => some socket_type.CLIENT
  | .op_connect .. => some socket_type.CLIENT
  | .op_bind .. => some socket_type.SERVER
  | .op_listen .. => some socket_type.SERVER
  | .op_accept .. => some socket_type.SERVER
  | .op_close => none
  | .op_set_type _ => none

theorem fd_map.insert_self (m : fd_map) (fd : Int) (t : tracked_socket) :
    fd_map.insert m fd t fd = some t := by
  simp [fd_map.insert]

theorem fd_map.erase_self (m : fd_map) (fd : Int) :
    fd_map.erase m fd fd = none := by
  simp [fd_map.erase]

/-- Claim C5 counterexample: `untrack` on a socket whose fd is not in the
tracked map returns before reaching `notify()`, so the self-pipe notifier is
not notified — the notify count stays 0 instead of becoming 1, refuting the
claim's "in either case the self-pipe notifier is notified" for every socket
passed to untrack. -/
theorem C5_counterexample :
    (io_service.untrack ⟨fun _ => none, 0, 0⟩ 5).m_nNotifyCount = 0 ∧ (0 : Nat) ≠ 0 + 1 := by
  exact ⟨rfl, by decide⟩

/-- Claim C5 (amended): for every socket passed to `untrack` whose fd is
currently in the tracked map, if no read or write callback is executing for
the fd the record is removed immediately (with a removal broadcast),
otherwise `markedForUntrack` is set; in either tracked case the self-pipe
notifier is notified. If the fd is not tracked, untrack returns with no
effect. -/
theorem C5_untrack_contract (s : io_service) (fd : Int) (t : tracked_socket)
    (h : s.m_mapTrackedSockets fd = some t) :
    (t.bIsExecutingCallbackRead = false → t.bIsExecutingCallbackWrite = false →
      (io_service.untrack s fd).m_mapTrackedSockets fd = none ∧
      (io_service.untrack s fd).m_nRemovalBroadcastCount
        = s.m_nRemovalBroadcastCount + 1) ∧
    ((t.bIsExecutingCallbackRead = true ∨ t.bIsExecutingCallbackWrite = true) →
      (io_service.untrack s fd).m_mapTrackedSockets fd
        = some { t with bMarkedForUntrack := true }) ∧
    (io_service.untrack s fd).m_nNotifyCount = s.m_nNotifyCount + 1 := by
  refine ⟨?_, ?_, ?_⟩
  · intro hr hw
    simp [io_service.untrack, h, hr, hw, fd_map.erase_self]
  · intro hexec
    rcases hexec with h1 | h1 <;>
      simp [io_service.untrack, h, h1, fd_map.insert_self]
  · cases hr : t.bIsExecutingCallbackRead <;> cases hw : t.bIsExecutingCallbackWrite <;>
      simp [io_service.untrack, h, hr, hw]

/-- Claim C5 witness: the amended contract at a concrete service tracking
fd 7 with an executing read callback. -/
theorem C5_untrack_contract_witness :
    (io_service.untrack
        ⟨fun x => if x = 7 then
            some ⟨some (event_callback.other 1), none, true, false, false⟩
          else none, 0, 0⟩ 7).m_mapTrackedSockets 7
      = some ⟨some (event_callback.other 1), none, true, false, true⟩ ∧
    (io_service.untrack
        ⟨fun x => if x = 7 then
            some ⟨some (event_callback.other 1), none, true, false, false⟩
          else none, 0, 0⟩ 7).m_nNotifyCount = 1 := by
  have h := C5_untrack_contract
    ⟨fun x => if x = 7 then
        some ⟨some (event_callback.other 1), none, true, false, false⟩
      else none, 0, 0⟩ 7
    ⟨some (event_callback.other 1), none, true, false, false⟩ (by decide)
  exact ⟨h.2.1 (Or.inl rfl), h.2.2⟩

/-- Claim C1: untracking an fd with an executing callback only marks the
record; the poller's event-processing pass erases the record (and broadcasts
the removal condvar) exactly when the mark is set and neither direction is
executing after dispatch submission; each dispatch closure, after clearing
its own executing flag, erases the record (and broadcasts) exactly when the
mark is set and the other direction is not executing. -/
theorem C1_removal_protocol (s : io_service) (fd : Int) (t : tracked_socket)
    (readable writable : Bool)
    (h : s.m_mapTrackedSockets fd = some t) :
    ((t.bIsExecutingCallbackRead = true ∨ t.bIsExecutingCallbackWrite = true) →
      (io_service.untrack s fd).m_mapTrackedSockets fd
        = some { t with bMarkedForUntrack := true }) ∧
    ((io_service.rd_dispatch_done s fd).m_mapTrackedSockets fd
      = if t.bMarkedForUntrack && !t.bIsExecutingCallbackWrite then none
        else some { t with bIsExecutingCallbackRead := false }) ∧
    ((io_service.rd_dispatch_done s fd).m_nRemovalBroadcastCount
      = if t.bMarkedForUntrack && !t.bIsExecutingCallbackWrite
        then s.m_nRemovalBroadcastCount + 1 else s.m_nRemovalBroadcastCount) ∧
    ((io_service.wr_dispatch_done s fd).m_mapTrackedSockets fd
      = if t.bMarkedForUntrack && !t.bIsExecutingCallbackRead then none
        else some { t with bIsExecutingCallbackWrite := false }) ∧
    ((io_service.wr_dispatch_done s fd).m_nRemovalBroadcastCount
      = if t.bMarkedForUntrack && !t.bIsExecutingCallbackRead
        then s.m_nRemovalBroadcastCount + 1 else s.m_nRemovalBroadcastCount) ∧
    ((io_service.process_fd s fd readable writable).1.m_mapTrackedSockets fd
      = if (poll_dispatch fd t readable writable).1.bMarkedForUntrack
           && !(poll_dispatch fd t readable writable).1.bIsExecutingCallbackRead
           && !(poll_dispatch fd t readable writable).1.bIsExecutingCallbackWrite
        then none else some (poll_dispatch fd t readable writable).1) ∧
    ((io_service.process_fd s fd readable writable).1.m_nRemovalBroadcastCount
      = if (poll_dispatch fd t readable writable).1.bMarkedForUntrack
           && !(poll_dispatch fd t readable writable).1.bIsExecutingCallbackRead
           && !(poll_dispatch fd t readable writable).1.bIsExecutingCallbackWrite
        then s.m_nRemovalBroadcastCount + 1 else s.m_nRemovalBroadcastCount) := by
  refine ⟨?_, ?_, ?_, ?_, ?_, ?_, ?_⟩
  · intro hexec
    rcases hexec with h1 | h1 <;>
      simp [io_service.untrack, h, h1, fd_map.insert_self]
  · by_cases hc : (t.bMarkedForUntrack && !t.bIsExecutingCallbackWrite) = true <;>
      simp [io_service.rd_dispatch_done, h, hc, fd_map.insert_self, fd_map.erase_self]
  · by_cases hc : (t.bMarkedForUntrack && !t.bIsExecutingCallbackWrite) = true <;>
      simp [io_service.rd_dispatch_done, h, hc]
  · by_cases hc : (t.bMarkedForUntrack && !t.bIsExecutingCallbackRead) = true <;>
      simp [io_service.wr_dispatch_done, h, hc, fd_map.insert_self, fd_map.erase_self]
  · by_cases hc : (t.bMarkedForUntrack && !t.bIsExecutingCallbackRead) = true <;>
      simp [io_service.wr_dispatch_done, h, hc]
  · by_cases hc : ((poll_dispatch fd t readable writable).1.bMarkedForUntrack
        && !(poll_dispatch fd t readable writable).1.bIsExecutingCallbackRead
        && !(poll_dispatch fd t readable writable).1.bIsExecutingCallbackWrite) = true <;>
      simp [io_service.process_fd, h, hc, fd_map.insert_self, fd_map.erase_self]
  · by_cases hc : ((poll_dispatch fd t readable writable).1.bMarkedForUntrack
        && !(poll_dispatch fd t readable writable).1.bIsExecutingCallbackRead
        && !(poll_dispatch fd t readable writable).1.bIsExecutingCallbackWrite) = true <;>
      simp [io_service.process_fd, h, hc]

/-- Claim C1 witness: the protocol at a concrete service tracking fd 7 with
a marked-for-untrack record whose read callback is executing: untrack keeps
the record marked, and the read-dispatch completion removes it with a
broadcast. -/
theorem C1_removal_protocol_witness :
    (io_service.untrack
        ⟨fun x => if x = 7 then
            some ⟨some (event_callback.other 1), none, true, false, true⟩
          else none, 0, 0⟩ 7).m_mapTrackedSockets 7
      = some ⟨some (event_callback.other 1), none, true, false, true⟩ ∧
    (io_service.rd_dispatch_done
        ⟨fun x => if x = 7 then
            some ⟨some (event_callback.other 1), none, true, false, true⟩
          else none, 0, 0⟩ 7).m_mapTrackedSockets 7 = none ∧
    (io_service.rd_dispatch_done
        ⟨fun x => if x = 7 then
            some ⟨some (event_callback.other 1), none, true, false, true⟩
          else none, 0, 0⟩ 7).m_nRemovalBroadcastCount = 1 := by
  have h := C1_removal_protocol
    ⟨fun x => if x = 7 then
        some ⟨some (event_callback.other 1), none, true, false, true⟩
      else none, 0, 0⟩ 7
    ⟨some (event_callback.other 1), none, true, false, true⟩ false false (by decide)
  refine ⟨h.1 (Or.inl rfl), ?_, ?_⟩
  · have h2 := h.2.1
    simpa using h2
  · have h3 := h.2.2.1
    simpa using h3

/-- Claim C10: setting a read or write callback for an fd absent from the
tracked map inserts a fresh record (only the given direction's callback set,
executing flags clear, not marked for untrack) and notifies the poller. -/
theorem C10_set_callback_retracks (s : io_service) (fd : Int) (cb : event_callback)
    (h : s.m_mapTrackedSockets fd = none) :
    (io_service.set_rd_callback s fd (some cb)).m_mapTrackedSockets fd
      = some ⟨some cb, none, false, false, false⟩ ∧
    (io_service.set_rd_callback s fd (some cb)).m_nNotifyCount
      = s.m_nNotifyCount + 1 ∧
    (io_service.set_wr_callback s fd (some cb)).m_mapTrackedSockets fd
      = some ⟨none, some cb, false, false, false⟩ ∧
    (io_service.set_wr_callback s fd (some cb)).m_nNotifyCount
      = s.m_nNotifyCount + 1 := by
  refine ⟨?_, ?_, ?_, ?_⟩ <;>
    simp [io_service.set_rd_callback, io_service.set_wr_callback, h,
      tracked_socket.default_init, fd_map.insert_self]

/-- Claim C10 witness: re-tracking via `set_rd_callback`/`set_wr_callback`
on a service with an empty tracked map, at fd 4. -/
theorem C10_set_callback_retracks_witness :
    (io_service.set_rd_callback ⟨fun _ => none, 0, 0⟩ 4
        (some (event_callback.other 9))).m_mapTrackedSockets 4
      = some ⟨some (event_callback.other 9), none, false, false, false⟩ ∧
    (io_service.set_rd_callback ⟨fun _ => none, 0, 0⟩ 4
        (some (event_callback.other 9))).m_nNotifyCount = 1 ∧
    (io_service.set_wr_callback ⟨fun _ => none, 0, 0⟩ 4
        (some (event_callback.other 9))).m_mapTrackedSockets 4
      = some ⟨none, some (event_callback.other 9), false, false, false⟩ ∧
    (io_service.set_wr_callback ⟨fun _ => none, 0, 0⟩ 4
        (some (event_callback.other 9))).m_nNotifyCount = 1 :=
  C10_set_callback_retracks ⟨fun _ => none, 0, 0⟩ 4 (event_callback.other 9) rfl

/-- Claim C2 counterexample: `process_read` with an empty read queue returns
at once; the reactor's read callback for the client's fd 3 is still the
installed handler afterwards (and the service was never notified), refuting
"the reactor's read interest for the client's fd is cleared". -/
theorem C2_counterexample :
    (tcp_client.process_read
        ⟨⟨⟨3, "h", 1, socket_type.CLIENT⟩, true, [], [], false⟩,
         ⟨fun x => if x = 3 then
             some ⟨some event_callback.on_read_available, none, false, false, false⟩
           else none, 0, 0⟩⟩
        ⟨false, []⟩ (-1) (recv_ret.data [])).2.1 = none ∧
    (tcp_client.process_read
        ⟨⟨⟨3, "h", 1, socket_type.CLIENT⟩, true, [], [], false⟩,
         ⟨fun x => if x = 3 then
             some ⟨some event_callback.on_read_available, none, false, false, false⟩
           else none, 0, 0⟩⟩
        ⟨false, []⟩ (-1) (recv_ret.data [])).1.svc.m_mapTrackedSockets 3
      = some ⟨some event_callback.on_read_available, none, false, false, false⟩ ∧
    (tcp_client.process_read
        ⟨⟨⟨3, "h", 1, socket_type.CLIENT⟩, true, [], [], false⟩,
         ⟨fun x => if x = 3 then
             some ⟨some event_callback.on_read_available, none, false, false, false⟩
           else none, 0, 0⟩⟩
        ⟨false, []⟩ (-1) (recv_ret.data [])).1.svc.m_nNotifyCount = 0 := by
  refine ⟨rfl, by decide, rfl⟩

/-- Claim C2 (amended): `process_read` invoked with an empty read queue
returns a nil callback with the whole state unchanged — in particular it
does not invoke any user callback and it leaves the reactor's read interest
exactly as it was (the interest is cleared only when a pop drains the
queue). -/
theorem C2_empty_queue_noop (w : client_world) (resultRead : read_result)
    (freshFd : Int) (platform : recv_ret)
    (h : w.client.m_queReadRequests = []) :
    tcp_client.process_read w resultRead freshFd platform = (w, none, resultRead) := by
  simp [tcp_client.process_read, h]

/-- Claim C2 witness: the amended no-op behavior at a concrete client with
an empty read queue. -/
theorem C2_empty_queue_noop_witness :
    tcp_client.process_read
        ⟨⟨⟨3, "h", 1, socket_type.CLIENT⟩, true, [], [], false⟩, ⟨fun _ => none, 0, 0⟩⟩
        ⟨false, []⟩ (-1) recv_ret.socket_error
      = (⟨⟨⟨3, "h", 1, socket_type.CLIENT⟩, true, [], [], false⟩, ⟨fun _ => none, 0, 0⟩⟩,
         none, ⟨false, []⟩) :=
  C2_empty_queue_noop
    ⟨⟨⟨3, "h", 1, socket_type.CLIENT⟩, true, [], [], false⟩, ⟨fun _ => none, 0, 0⟩⟩
    ⟨false, []⟩ (-1) recv_ret.socket_error rfl

/-- Claim C3: a single handler invocation pops and services exactly the
front request of its direction's FIFO queue: the queue becomes its tail (so
its length decreases by one) and the returned callback — the one the handler
invokes — is the front request's. -/
theorem C3_fifo_single_service (w : client_world)
    (resultRead : read_result) (resultWrite : write_result)
    (freshFd : Int) (pr : recv_ret) (pw : send_ret)
    (r : read_request) (rrest : List read_request)
    (q : write_request) (wrest : List write_request)
    (hr : w.client.m_queReadRequests = r :: rrest)
    (hw : w.client.m_queWriteRequests = q :: wrest) :
    (tcp_client.process_read w resultRead freshFd pr).1.client.m_queReadRequests = rrest ∧
    (tcp_client.process_read w resultRead freshFd pr).2.1 = some r.callbackAsyncRead ∧
    (tcp_client.process_read w resultRead freshFd pr).1.client.m_queReadRequests.length + 1
      = w.client.m_queReadRequests.length ∧
    (tcp_client.process_write w resultWrite freshFd pw).1.client.m_queWriteRequests = wrest ∧
    (tcp_client.process_write w resultWrite freshFd pw).2.1 = some q.callbackAsyncWrite ∧
    (tcp_client.process_write w resultWrite freshFd pw).1.client.m_queWriteRequests.length + 1
      = w.client.m_queWriteRequests.length := by
  refine ⟨?_, ?_, ?_, ?_, ?_, ?_⟩ <;>
    simp [tcp_client.process_read, tcp_client.process_write, hr, hw]

/-- Claim C3 witness: FIFO service of the front request at a concrete client
with two queued reads and two queued writes. -/
theorem C3_fifo_single_service_witness :
    (tcp_client.process_read
        ⟨⟨⟨3, "h", 1, socket_type.CLIENT⟩, true, [⟨16, 10⟩, ⟨32, 11⟩], [⟨[1], 20⟩, ⟨[2], 21⟩], false⟩,
         ⟨fun _ => none, 0, 0⟩⟩
        ⟨false, []⟩ (-1) (recv_ret.data [5])).1.client.m_queReadRequests = [⟨32, 11⟩] ∧
    (tcp_client.process_read
        ⟨⟨⟨3, "h", 1, socket_type.CLIENT⟩, true, [⟨16, 10⟩, ⟨32, 11⟩], [⟨[1], 20⟩, ⟨[2], 21⟩], false⟩,
         ⟨fun _ => none, 0, 0⟩⟩
        ⟨false, []⟩ (-1) (recv_ret.data [5])).2.1 = some 10 ∧
    (tcp_client.process_read
        ⟨⟨⟨3, "h", 1, socket_type.CLIENT⟩, true, [⟨16, 10⟩, ⟨32, 11⟩], [⟨[1], 20⟩, ⟨[2], 21⟩], false⟩,
         ⟨fun _ => none, 0, 0⟩⟩
        ⟨false, []⟩ (-1) (recv_ret.data [5])).1.client.m_queReadRequests.length + 1 = 2 ∧
    (tcp_client.process_write
        ⟨⟨⟨3, "h", 1, socket_type.CLIENT⟩, true, [⟨16, 10⟩, ⟨32, 11⟩], [⟨[1], 20⟩, ⟨[2], 21⟩], false⟩,
         ⟨fun _ => none, 0, 0⟩⟩
        ⟨false, 0⟩ (-1) (send_ret.sent 1)).1.client.m_queWriteRequests = [⟨[2], 21⟩] ∧
    (tcp_client.process_write
        ⟨⟨⟨3, "h", 1, socket_type.CLIENT⟩, true, [⟨16, 10⟩, ⟨32, 11⟩], [⟨[1], 20⟩, ⟨[2], 21⟩], false⟩,
         ⟨fun _ => none, 0, 0⟩⟩
        ⟨false, 0⟩ (-1) (send_ret.sent 1)).2.1 = some 20 ∧
    (tcp_client.process_write
        ⟨⟨⟨3, "h", 1, socket_type.CLIENT⟩, true, [⟨16, 10⟩, ⟨32, 11⟩], [⟨[1], 20⟩, ⟨[2], 21⟩], false⟩,
         ⟨fun _ => none, 0, 0⟩⟩
        ⟨false, 0⟩ (-1) (send_ret.sent 1)).1.client.m_queWriteRequests.length + 1 = 2 :=
  C3_fifo_single_service
    ⟨⟨⟨3, "h", 1, socket_type.CLIENT⟩, true, [⟨16, 10⟩, ⟨32, 11⟩], [⟨[1], 20⟩, ⟨[2], 21⟩], false⟩,
     ⟨fun _ => none, 0, 0⟩⟩
    ⟨false, []⟩ ⟨false, 0⟩ (-1) (recv_ret.data [5]) (send_ret.sent 1)
    ⟨16, 10⟩ [⟨32, 11⟩] ⟨[1], 20⟩ [⟨[2], 21⟩] rfl rfl

/-- Claim C4: `disconnect` on a connected client clears the connected flag,
discards both request queues invoking none of their callbacks, untracks the
fd from the reactor (immediately removed when no callback is executing, so a
waiting disconnect returns), and closes the socket; any subsequent
disconnect call returns the state unchanged with no side effects. -/
theorem C4_disconnect_idempotent (w : client_world) (b b2 : Bool)
    (h : w.client.m_bIsConnected = true) :
    (tcp_client.disconnect w b).1.client.m_bIsConnected = false ∧
    (tcp_client.disconnect w b).1.client.m_queReadRequests = [] ∧
    (tcp_client.disconnect w b).1.client.m_queWriteRequests = [] ∧
    (tcp_client.disconnect w b).2 = [] ∧
    (tcp_client.disconnect w b).1.svc
      = io_service.untrack w.svc w.client.m_tcpSocket.m_fd ∧
    (∀ t, w.svc.m_mapTrackedSockets w.client.m_tcpSocket.m_fd = some t →
      t.bIsExecutingCallbackRead = false → t.bIsExecutingCallbackWrite = false →
      (tcp_client.disconnect w b).1.svc.m_mapTrackedSockets
        w.client.m_tcpSocket.m_fd = none) ∧
    (tcp_client.disconnect w b).1.client.m_tcpSocket.m_fd = INVALID_FD ∧
    (tcp_client.disconnect w b).1.client.m_tcpSocket.m_eType = socket_type.UNKNOWN ∧
    tcp_client.disconnect (tcp_client.disconnect w b).1 b2
      = ((tcp_client.disconnect w b).1, []) := by
  refine ⟨?_, ?_, ?_, ?_, ?_, ?_, ?_, ?_, ?_⟩
  · simp [tcp_client.disconnect, h]
  · simp [tcp_client.disconnect, h]
  · simp [tcp_client.disconnect, h]
  · simp [tcp_client.disconnect, h]
  · simp [tcp_client.disconnect, h]
  · intro t ht hr hw
    simp [tcp_client.disconnect, h, io_service.untrack, ht, hr, hw, fd_map.erase_self]
  · simp [tcp_client.disconnect, h, tcp_socket.close]
  · simp [tcp_client.disconnect, h, tcp_socket.close]
  · simp [tcp_client.disconnect, h]

/-- Claim C4 witness: disconnect of a concrete connected client with queued
requests and a tracked idle record; the second disconnect is a no-op. -/
theorem C4_disconnect_idempotent_witness :
    (tcp_client.disconnect
        ⟨⟨⟨3, "h", 1, socket_type.CLIENT⟩, true, [⟨16, 10⟩], [⟨[1], 20⟩], true⟩,
         ⟨fun x => if x = 3 then some ⟨some event_callback.on_read_available, none, false, false, false⟩
           else none, 0, 0⟩⟩ true).1.client.m_bIsConnected = false ∧
    (tcp_client.disconnect
        ⟨⟨⟨3, "h", 1, socket_type.CLIENT⟩, true, [⟨16, 10⟩], [⟨[1], 20⟩], true⟩,
         ⟨fun x => if x = 3 then some ⟨some event_callback.on_read_available, none, false, false, false⟩
           else none, 0, 0⟩⟩ true).1.client.m_queReadRequests = [] ∧
    (tcp_client.disconnect
        ⟨⟨⟨3, "h", 1, socket_type.CLIENT⟩, true, [⟨16, 10⟩], [⟨[1], 20⟩], true⟩,
         ⟨fun x => if x = 3 then some ⟨some event_callback.on_read_available, none, false, false, false⟩
           else none, 0, 0⟩⟩ true).2 = [] ∧
    (tcp_client.disconnect
        ⟨⟨⟨3, "h", 1, socket_type.CLIENT⟩, true, [⟨16, 10⟩], [⟨[1], 20⟩], true⟩,
         ⟨fun x => if x = 3 then some ⟨some event_callback.on_read_available, none, false, false, false⟩
           else none, 0, 0⟩⟩ true).1.svc.m_mapTrackedSockets 3 = none ∧
    tcp_client.disconnect
        (tcp_client.disconnect
          ⟨⟨⟨3, "h", 1, socket_type.CLIENT⟩, true, [⟨16, 10⟩], [⟨[1], 20⟩], true⟩,
           ⟨fun x => if x = 3 then some ⟨some event_callback.on_read_available, none, false, false, false⟩
             else none, 0, 0⟩⟩ true).1 false
      = ((tcp_client.disconnect
          ⟨⟨⟨3, "h", 1, socket_type.CLIENT⟩, true, [⟨16, 10⟩], [⟨[1], 20⟩], true⟩,
           ⟨fun x => if x = 3 then some ⟨some event_callback.on_read_available, none, false, false, false⟩
             else none, 0, 0⟩⟩ true).1, []) := by
  have h := C4_disconnect_idempotent
    ⟨⟨⟨3, "h", 1, socket_type.CLIENT⟩, true, [⟨16, 10⟩], [⟨[1], 20⟩], true⟩,
     ⟨fun x => if x = 3 then some ⟨some event_callback.on_read_available, none, false, false, false⟩
       else none, 0, 0⟩⟩ true false rfl
  refine ⟨h.1, h.2.1, h.2.2.2.1, ?_, h.2.2.2.2.2.2.2.2⟩
  exact h.2.2.2.2.2.1 ⟨some event_callback.on_read_available, none, false, false, false⟩
    (by decide) rfl rfl

/-- Claim C6: `connect` on an already-connected client raises and changes
nothing; on a fresh client it performs the blocking socket connect, tracks
the socket in the reactor with no active callbacks, then sets the connected
flag; on any connect failure the socket is closed, the error is re-raised
and the client stays disconnected with the reactor untouched. -/
theorem C6_connect_contract (w : client_world) (sHost : String) (uPort : Nat)
    (freshFd : Int)
    (hconn : w.client.m_bIsConnected = false)
    (hfd : w.client.m_tcpSocket.m_fd = INVALID_FD)
    (hfresh : freshFd ≠ INVALID_FD) :
    (∀ w2 : client_world, w2.client.m_bIsConnected = true →
      ∀ p, tcp_client.connect w2 sHost uPort freshFd p
        = (w2, .error ⟨"tcp_client is already connected"⟩)) ∧
    (tcp_client.connect w sHost uPort freshFd connect_outcome.success).1.client.m_bIsConnected
      = true ∧
    (tcp_client.connect w sHost uPort freshFd connect_outcome.success).1.svc.m_mapTrackedSockets
        freshFd
      = some ⟨none, none, false, false, false⟩ ∧
    (tcp_client.connect w sHost uPort freshFd connect_outcome.success).2 = .ok () ∧
    (∀ p, p ≠ connect_outcome.success →
      (tcp_client.connect w sHost uPort freshFd p).1.client.m_bIsConnected = false ∧
      (tcp_client.connect w sHost uPort freshFd p).1.client.m_tcpSocket.m_fd = INVALID_FD ∧
      (tcp_client.connect w sHost uPort freshFd p).1.client.m_tcpSocket.m_eType
        = socket_type.UNKNOWN ∧
      isErr (tcp_client.connect w sHost uPort freshFd p).2 = true ∧
      (tcp_client.connect w sHost uPort freshFd p).1.svc = w.svc) := by
  refine ⟨?_, ?_, ?_, ?_, ?_⟩
  · intro w2 h2 p
    simp [tcp_client.connect, h2]
  · simp [tcp_client.connect, tcp_socket.connect, tcp_socket.create_socket_if_necessary,
      tcp_socket.check_or_set_type, hconn, hfd, hfresh]
  · simp [tcp_client.connect, tcp_socket.connect, tcp_socket.create_socket_if_necessary,
      tcp_socket.check_or_set_type, io_service.track, hconn, hfd, hfresh, fd_map.insert_self]
  · simp [tcp_client.connect, tcp_socket.connect, tcp_socket.create_socket_if_necessary,
      tcp_socket.check_or_set_type, hconn, hfd, hfresh]
  · intro p hp
    cases p <;>
      simp_all [tcp_client.connect, tcp_socket.connect, tcp_socket.create_socket_if_necessary,
        tcp_socket.check_or_set_type, tcp_socket.close, isErr, hconn, hfd, hfresh]

/-- Claim C6 witness: the connect contract at a concrete fresh client,
descriptor 5, covering success and the timeout failure. -/
theorem C6_connect_contract_witness :
    (tcp_client.connect
        ⟨⟨⟨-1, "", 0, socket_type.UNKNOWN⟩, false, [], [], false⟩, ⟨fun _ => none, 0, 0⟩⟩
        "127.0.0.1" 3001 5 connect_outcome.success).1.client.m_bIsConnected = true ∧
    (tcp_client.connect
        ⟨⟨⟨-1, "", 0, socket_type.UNKNOWN⟩, false, [], [], false⟩, ⟨fun _ => none, 0, 0⟩⟩
        "127.0.0.1" 3001 5 connect_outcome.success).1.svc.m_mapTrackedSockets 5
      = some ⟨none, none, false, false, false⟩ ∧
    (tcp_client.connect
        ⟨⟨⟨-1, "", 0, socket_type.UNKNOWN⟩, false, [], [], false⟩, ⟨fun _ => none, 0, 0⟩⟩
        "127.0.0.1" 3001 5 connect_outcome.timeout_expired).1.client.m_bIsConnected = false ∧
    (tcp_client.connect
        ⟨⟨⟨-1, "", 0, socket_type.UNKNOWN⟩, false, [], [], false⟩, ⟨fun _ => none, 0, 0⟩⟩
        "127.0.0.1" 3001 5 connect_outcome.timeout_expired).1.client.m_tcpSocket.m_fd
      = INVALID_FD ∧
    isErr (tcp_client.connect
        ⟨⟨⟨-1, "", 0, socket_type.UNKNOWN⟩, false, [], [], false⟩, ⟨fun _ => none, 0, 0⟩⟩
        "127.0.0.1" 3001 5 connect_outcome.timeout_expired).2 = true := by
  have h := C6_connect_contract
    ⟨⟨⟨-1, "", 0, socket_type.UNKNOWN⟩, false, [], [], false⟩, ⟨fun _ => none, 0, 0⟩⟩
    "127.0.0.1" 3001 5 rfl rfl (by decide)
  have hf := h.2.2.2.2 connect_outcome.timeout_expired (by decide)
  exact ⟨h.2.1, h.2.2.1, hf.1, hf.2.1, hf.2.2.2.1⟩

/-- Claim C7: `async_read` and `async_write` raise a usage error exactly
when the client is disconnected, leaving everything unchanged in that case;
when connected they install the client's handler as the reactor's callback
for that direction on the client's fd and append the request to the
direction's FIFO queue. -/
theorem C7_async_requires_connected (w : client_world)
    (requestRead : read_request) (requestWrite : write_request) :
    (isErr (tcp_client.async_read w requestRead).2 = true
      ↔ w.client.m_bIsConnected = false) ∧
    (isErr (tcp_client.async_write w requestWrite).2 = true
      ↔ w.client.m_bIsConnected = false) ∧
    (w.client.m_bIsConnected = false →
      tcp_client.async_read w requestRead = (w, .error ⟨"tcp_client is disconnected"⟩) ∧
      tcp_client.async_write w requestWrite = (w, .error ⟨"tcp_client is disconnected"⟩)) ∧
    (w.client.m_bIsConnected = true →
      (tcp_client.async_read w requestRead).1.client.m_queReadRequests
        = w.client.m_queReadRequests ++ [requestRead] ∧
      ((tcp_client.async_read w requestRead).1.svc.m_mapTrackedSockets
          w.client.m_tcpSocket.m_fd).map tracked_socket.callbackRead
        = some (some event_callback.on_read_available) ∧
      (tcp_client.async_write w requestWrite).1.client.m_queWriteRequests
        = w.client.m_queWriteRequests ++ [requestWrite] ∧
      ((tcp_client.async_write w requestWrite).1.svc.m_mapTrackedSockets
          w.client.m_tcpSocket.m_fd).map tracked_socket.callbackWrite
        = some (some event_callback.on_write_available)) := by
  cases hb : w.client.m_bIsConnected <;>
    simp [tcp_client.async_read, tcp_client.async_write, io_service.set_rd_callback,
      io_service.set_wr_callback, isErr, hb, fd_map.insert_self]

/-- Claim C7 witness: at a connected concrete client the requests are
appended and the handlers installed; at the same client disconnected both
calls fail. -/
theorem C7_async_requires_connected_witness :
    ((isErr (tcp_client.async_read
        ⟨⟨⟨3, "h", 1, socket_type.CLIENT⟩, true, [], [], false⟩, ⟨fun _ => none, 0, 0⟩⟩
        ⟨16, 10⟩).2 = true) ↔ False) ∧
    (tcp_client.async_read
        ⟨⟨⟨3, "h", 1, socket_type.CLIENT⟩, true, [], [], false⟩, ⟨fun _ => none, 0, 0⟩⟩
        ⟨16, 10⟩).1.client.m_queReadRequests = [⟨16, 10⟩] ∧
    ((tcp_client.async_read
        ⟨⟨⟨3, "h", 1, socket_type.CLIENT⟩, true, [], [], false⟩, ⟨fun _ => none, 0, 0⟩⟩
        ⟨16, 10⟩).1.svc.m_mapTrackedSockets 3).map tracked_socket.callbackRead
      = some (some event_callback.on_read_available) ∧
    tcp_client.async_write
        ⟨⟨⟨3, "h", 1, socket_type.CLIENT⟩, false, [], [], false⟩, ⟨fun _ => none, 0, 0⟩⟩
        ⟨[1], 20⟩
      = (⟨⟨⟨3, "h", 1, socket_type.CLIENT⟩, false, [], [], false⟩, ⟨fun _ => none, 0, 0⟩⟩,
         .error ⟨"tcp_client is disconnected"⟩) := by
  have hc := C7_async_requires_connected
    ⟨⟨⟨3, "h", 1, socket_type.CLIENT⟩, true, [], [], false⟩, ⟨fun _ => none, 0, 0⟩⟩
    ⟨16, 10⟩ ⟨[1], 20⟩
  have hd := C7_async_requires_connected
    ⟨⟨⟨3, "h", 1, socket_type.CLIENT⟩, false, [], [], false⟩, ⟨fun _ => none, 0, 0⟩⟩
    ⟨16, 10⟩ ⟨[1], 20⟩
  refine ⟨?_, ?_, ?_, ?_⟩
  · simpa using hc.1
  · simpa using (hc.2.2.2 rfl).1
  · exact (hc.2.2.2 rfl).2.1
  · exact (hd.2.2.1 rfl).2

/-- Claim C8: a 0-byte platform `recv` for a pending read request is raised
by the socket layer as a failure; the read handler then reports
`{success=false}` to the popped request's callback, disconnects the client
(the connected flag becomes false), and invokes the installed disconnection
handler exactly once, after the read callback. -/
theorem C8_zero_recv_disconnects (w : client_world) (resultInit : read_result)
    (freshFd : Int) (r : read_request) (rest : List read_request)
    (hconn : w.client.m_bIsConnected = true)
    (hq : w.client.m_queReadRequests = r :: rest)
    (hfd : w.client.m_tcpSocket.m_fd ≠ INVALID_FD)
    (htype : w.client.m_tcpSocket.m_eType = socket_type.CLIENT) :
    isErr (tcp_socket.recv w.client.m_tcpSocket r.nSizeToRead freshFd
        (recv_ret.data [])).2 = true ∧
    (w.client.m_handlerDisconnection = true →
      (tcp_client.on_read_available w resultInit freshFd (recv_ret.data [])).2
        = [invocation.read_cb r.callbackAsyncRead { resultInit with success := false },
           invocation.disconnection]) ∧
    (tcp_client.on_read_available w resultInit freshFd
        (recv_ret.data [])).1.client.m_bIsConnected = false := by
  refine ⟨?_, ?_, ?_⟩
  · simp [tcp_socket.recv, tcp_socket.create_socket_if_necessary,
      tcp_socket.check_or_set_type, isErr, hfd, htype]
  · intro hhandler
    simp [tcp_client.on_read_available, tcp_client.process_read, tcp_client.disconnect,
      tcp_socket.recv, tcp_socket.create_socket_if_necessary, tcp_socket.check_or_set_type,
      hconn, hq, hfd, htype, hhandler]
  · simp [tcp_client.on_read_available, tcp_client.process_read, tcp_client.disconnect,
      tcp_socket.recv, tcp_socket.create_socket_if_necessary, tcp_socket.check_or_set_type,
      hconn, hq, hfd, htype]

/-- Claim C8 witness: peer-close during a pending read at a concrete
connected client with an installed disconnection handler. -/
theorem C8_zero_recv_disconnects_witness :
    isErr (tcp_socket.recv ⟨3, "h", 1, socket_type.CLIENT⟩ 16 (-1)
        (recv_ret.data [])).2 = true ∧
    (tcp_client.on_read_available
        ⟨⟨⟨3, "h", 1, socket_type.CLIENT⟩, true, [⟨16, 10⟩], [], true⟩,
         ⟨fun _ => none, 0, 0⟩⟩
        ⟨false, []⟩ (-1) (recv_ret.data [])).2
      = [invocation.read_cb 10 ⟨false, []⟩, invocation.disconnection] ∧
    (tcp_client.on_read_available
        ⟨⟨⟨3, "h", 1, socket_type.CLIENT⟩, true, [⟨16, 10⟩], [], true⟩,
         ⟨fun _ => none, 0, 0⟩⟩
        ⟨false, []⟩ (-1) (recv_ret.data [])).1.client.m_bIsConnected = false := by
  have h := C8_zero_recv_disconnects
    ⟨⟨⟨3, "h", 1, socket_type.CLIENT⟩, true, [⟨16, 10⟩], [], true⟩, ⟨fun _ => none, 0, 0⟩⟩
    ⟨false, []⟩ (-1) ⟨16, 10⟩ [] rfl rfl (by decide) rfl
  exact ⟨h.1, h.2.1 rfl, h.2.2⟩

/-- Claim C9 counterexample: the public `set_type` setter returns a
CLIENT-role socket to UNKNOWN without any close and without raising, so the
role can leave a non-Unknown value by an operation other than `close`. -/
theorem C9_counterexample :
    (tcp_socket.step ⟨3, "host", 1, socket_type.CLIENT⟩
        (socket_op.op_set_type socket_type.UNKNOWN)).1.m_eType = socket_type.UNKNOWN ∧
    socket_op.op_set_type socket_type.UNKNOWN ≠ socket_op.op_close ∧
    isErr (tcp_socket.step ⟨3, "host", 1, socket_type.CLIENT⟩
        (socket_op.op_set_type socket_type.UNKNOWN)).2 = false := by
  refine ⟨rfl, by decide, rfl⟩

/-- Claim C9 (amended): for a socket holding a valid descriptor whose role is
not Unknown, the role returns to Unknown only via `close` — the `close`
method itself, the internal close performed by a failing `connect`, or the
explicit `set_type` setter — and attempting a role-guarded operation of the
other role raises a usage error while leaving the role unchanged. -/
theorem C9_role_protocol (s : tcp_socket) (op : socket_op)
    (hfd : s.m_fd ≠ INVALID_FD) (hrole : s.m_eType ≠ socket_type.UNKNOWN) :
    ((tcp_socket.step s op).1.m_eType = socket_type.UNKNOWN →
      op = socket_op.op_close ∨
      op = socket_op.op_set_type socket_type.UNKNOWN ∨
      ((∃ sHost uPort freshFd platform,
          op = socket_op.op_connect sHost uPort freshFd platform) ∧
        isErr (tcp_socket.step s op).2 = true)) ∧
    (∀ r, socket_op.required_role op = some r → s.m_eType ≠ r →
      (tcp_socket.step s op).1.m_eType = s.m_eType ∧
      (tcp_socket.step s op).2
        = .error ⟨"trying to perform invalid operation on socket"⟩) := by
  constructor
  · intro hU
    cases op with
    | op_close => exact Or.inl rfl
    | op_set_type t =>
      refine Or.inr (Or.inl ?_)
      simp [tcp_socket.step, tcp_socket.set_type] at hU
      simp [hU]
    | op_connect sHost uPort freshFd platform =>
      refine Or.inr (Or.inr ⟨⟨sHost, uPort, freshFd, platform, rfl⟩, ?_⟩)
      by_cases hc : s.m_eType = socket_type.CLIENT
      · cases platform <;>
          simp_all [tcp_socket.step, tcp_socket.connect,
            tcp_socket.create_socket_if_necessary, tcp_socket.check_or_set_type,
            tcp_socket.close, isErr, hfd, hc]
      · simp [tcp_socket.step, tcp_socket.connect,
          tcp_socket.create_socket_if_necessary, tcp_socket.check_or_set_type,
          isErr, hfd, hc, hrole]
    | op_recv n freshFd platform =>
      exfalso
      by_cases hc : s.m_eType = socket_type.CLIENT
      · cases platform with
        | socket_error =>
          simp [tcp_socket.step, tcp_socket.recv,
            tcp_socket.create_socket_if_necessary, tcp_socket.check_or_set_type,
            hfd, hc] at hU
        | data bytes =>
          by_cases hb : bytes.length = 0 <;>
            simp [tcp_socket.step, tcp_socket.recv,
              tcp_socket.create_socket_if_necessary, tcp_socket.check_or_set_type,
              hfd, hc, hb] at hU
      · simp [tcp_socket.step, tcp_socket.recv,
          tcp_socket.create_socket_if_necessary, tcp_socket.check_or_set_type,
          hfd, hc, hrole] at hU
    | op_send d n freshFd platform =>
      exfalso
      by_cases hc : s.m_eType = socket_type.CLIENT
      · cases platform <;>
          simp [tcp_socket.step, tcp_socket.send,
            tcp_socket.create_socket_if_necessary, tcp_socket.check_or_set_type,
            hfd, hc] at hU
      · simp [tcp_socket.step, tcp_socket.send,
          tcp_socket.create_socket_if_necessary, tcp_socket.check_or_set_type,
          hfd, hc, hrole] at hU
    | op_bind sHost uPort freshFd platform =>
      exfalso
      by_cases hc : s.m_eType = socket_type.SERVER
      · cases platform <;>
          simp [tcp_socket.step, tcp_socket.bind,
            tcp_socket.create_socket_if_necessary, tcp_socket.check_or_set_type,
            hfd, hc] at hU
      · simp [tcp_socket.step, tcp_socket.bind,
          tcp_socket.create_socket_if_necessary, tcp_socket.check_or_set_type,
          hfd, hc, hrole] at hU
    | op_listen n freshFd platform =>
      exfalso
      by_cases hc : s.m_eType = socket_type.SERVER
      · cases platform <;>
          simp [tcp_socket.step, tcp_socket.listen,
            tcp_socket.create_socket_if_necessary, tcp_socket.check_or_set_type,
            hfd, hc] at hU
      · simp [tcp_socket.step, tcp_socket.listen,
          tcp_socket.create_socket_if_necessary, tcp_socket.check_or_set_type,
          hfd, hc, hrole] at hU
    | op_accept freshFd platform =>
      exfalso
      by_cases hc : s.m_eType = socket_type.SERVER
      · cases platform <;>
          simp [tcp_socket.step, tcp_socket.accept,
            tcp_socket.create_socket_if_necessary, tcp_socket.check_or_set_type,
            hfd, hc] at hU
      · simp [tcp_socket.step, tcp_socket.accept,
          tcp_socket.create_socket_if_necessary, tcp_socket.check_or_set_type,
          hfd, hc, hrole] at hU
  · intro r hr hne
    cases op with
    | op_close => simp [socket_op.required_role] at hr
    | op_set_type t => simp [socket_op.required_role] at hr
    | op_recv n freshFd platform =>
      simp [socket_op.required_role] at hr
      subst hr
      constructor <;>
        simp [tcp_socket.step, tcp_socket.recv, tcp_socket.create_socket_if_necessary,
          tcp_socket.check_or_set_type, Except.map, hfd, hrole, hne]
    | op_send d n freshFd platform =>
      simp [socket_op.required_role] at hr
      subst hr
      constructor <;>
        simp [tcp_socket.step, tcp_socket.send, tcp_socket.create_socket_if_necessary,
          tcp_socket.check_or_set_type, Except.map, hfd, hrole, hne]
    | op_connect sHost uPort freshFd platform =>
      simp [socket_op.required_role] at hr
      subst hr
      constructor <;>
        simp [tcp_socket.step, tcp_socket.connect, tcp_socket.create_socket_if_necessary,
          tcp_socket.check_or_set_type, hfd, hrole, hne]
    | op_bind sHost uPort freshFd platform =>
      simp [socket_op.required_role] at hr
      subst hr
      constructor <;>
        simp [tcp_socket.step, tcp_socket.bind, tcp_socket.create_socket_if_necessary,
          tcp_socket.check_or_set_type, hfd, hrole, hne]
    | op_listen n freshFd platform =>
      simp [socket_op.required_role] at hr
      subst hr
      constructor <;>
        simp [tcp_socket.step, tcp_socket.listen, tcp_socket.create_socket_if_necessary,
          tcp_socket.check_or_set_type, hfd, hrole, hne]
    | op_accept freshFd platform =>
      simp [socket_op.required_role] at hr
      subst hr
      constructor <;>
        simp [tcp_socket.step, tcp_socket.accept, tcp_socket.create_socket_if_necessary,
          tcp_socket.check_or_set_type, Except.map, hfd, hrole, hne]

/-- Claim C9 witness: the amended protocol at a concrete CLIENT-role socket:
`close` returns the role to UNKNOWN, and a server-role `listen` attempt
raises the usage error leaving the role CLIENT. -/
theorem C9_role_protocol_witness :
    (socket_op.op_close = socket_op.op_close ∨
      socket_op.op_close = socket_op.op_set_type socket_type.UNKNOWN ∨
      ((∃ sHost uPort freshFd platform,
          socket_op.op_close = socket_op.op_connect sHost uPort freshFd platform) ∧
        isErr (tcp_socket.step ⟨3, "h", 1, socket_type.CLIENT⟩ socket_op.op_close).2
          = true)) ∧
    (tcp_socket.step ⟨3, "h", 1, socket_type.CLIENT⟩
        (socket_op.op_listen 8 (-1) listen_ret.success)).1.m_eType
      = socket_type.CLIENT ∧
    (tcp_socket.step ⟨3, "h", 1, socket_type.CLIENT⟩
        (socket_op.op_listen 8 (-1) listen_ret.success)).2
      = .error ⟨"trying to perform invalid operation on socket"⟩ := by
  have hclose := C9_role_protocol ⟨3, "h", 1, socket_type.CLIENT⟩ socket_op.op_close
    (by decide) (by decide)
  have hlisten := C9_role_protocol ⟨3, "h", 1, socket_type.CLIENT⟩
    (socket_op.op_listen 8 (-1) listen_ret.success) (by decide) (by decide)
  have h2 := hlisten.2 socket_type.SERVER rfl (by decide)
  exact ⟨hclose.1 rfl, h2.1, h2.2⟩

end tacopie
